import Mathlib

/-!
Verification of the myExomeAnalyzer genomic query daemon and ingestion
pipelines, as a shallow embedding in Lean 4.

The embedding follows the Python sources:
  src/tiledb/python-daemon.py      (TileDBQueryDaemon)
  src/population/gnomad-processor.py (GnomadProcessor)
  src/clinvar/clinvar-processor.py   (ClinVarProcessor)

Modelling conventions:
  - The sparse TileDB arrays are modelled as lists of rows in array order;
    a dimension slice becomes a filter on the coordinate fields.
  - Python floats are modelled as exact rationals; machine float rounding
    is not relevant to the properties proved here.
  - JSON decoding of the embedded per-sample genotype map is out of scope
    of the spec (black-box parser); sample data is modelled as the decoded
    association list from sample name to its GT string.
  - Wall-clock time is modelled as an integer number of seconds.
-/

namespace ExomeAnalyzer

/-! ## Coordinate mapper (python-daemon.py, TileDBQueryDaemon.__init__)

The daemon builds a dict chrom_map with entries "1".."22" and
"chr1".."chr22" mapped to 1..22, plus X/Y/MT/M (and chr-prefixed forms)
mapped to 23/24/25/25, and a reverse map 1..22 to "chr1".."chr22",
23/24/25 to "chrX"/"chrY"/"chrMT". -/

/-- Entries of the daemon dict chrom_map, in construction order. -/
def chromMapEntries : List (String × Nat) :=
  ((List.range 22).map (fun i => (toString (i + 1), i + 1))) ++
  ((List.range 22).map (fun i => ("chr" ++ toString (i + 1), i + 1))) ++
  [("X", 23), ("Y", 24), ("MT", 25), ("M", 25),
   ("chrX", 23), ("chrY", 24), ("chrMT", 25), ("chrM", 25)]

/-- self.chrom_map viewed as a partial function (dict lookup). -/
def chrom_map (s : String) : Option Nat :=
  chromMapEntries.lookup s

/-- self.reverse_chrom_map viewed as a partial function (dict lookup). -/
def reverse_chrom_map (i : Nat) : Option String :=
  if 1 ≤ i ∧ i ≤ 22 then some ("chr" ++ toString i)
  else if i = 23 then some "chrX"
  else if i = 24 then some "chrY"
  else if i = 25 then some "chrMT"
  else none

/-- self.chrom_map.get(chrom, 1): the default used by query_variants,
calculate_allele_frequency and lookup_population_frequency for a
chromosome label absent from the dict. -/
def resolve_chrom (s : String) : Nat :=
  (chrom_map s).getD 1

/-- The recognized base chromosome labels of the claim. -/
def baseChromLabels : List String :=
  (List.range 22).map (fun i => toString (i + 1)) ++ ["X", "Y", "MT", "M"]

/-- Base labels together with their chr-prefixed forms. -/
def allChromLabels : List String :=
  baseChromLabels ++ baseChromLabels.map (fun s => "chr" ++ s)

/-- The canonical chr-prefixed form of a recognized chromosome label:
strip a chr prefix, replace the alias M by the canonical mitochondrial
name MT (the label reverse_chrom_map uses for 25), and prepend chr.
This is the claim-side notion the round-trip is compared against. -/
def canonical_chrom (s : String) : String :=
  let base : List Char :=
    match s.data with
    | 'c' :: 'h' :: 'r' :: rest => rest
    | l => l
  let base := if base = ['M'] then ['M', 'T'] else base
  String.mk ('c' :: 'h' :: 'r' :: base)

/-! ## String primitives

The Python code uses str.split with a one-character separator,
str.replace with one-character arguments, str.lower, and the substring
containment test (sub in s).  They are embedded on the character list of
the string so that they compute by structural recursion. -/

/-- Python s.split(c) for a one-character separator: split at every
occurrence; the empty string yields one empty piece. -/
def pySplitChars (c : Char) : List Char → List (List Char)
  | [] => [[]]
  | x :: xs =>
    match pySplitChars c xs with
    | [] => [[]]
    | h :: t => if x = c then [] :: h :: t else (x :: h) :: t

/-- Python s.split(c) on strings. -/
def pySplit (s : String) (c : Char) : List String :=
  (pySplitChars c s.data).map String.mk

/-- Python s.replace(a, b) for one-character arguments. -/
def pyReplace (s : String) (a b : Char) : String :=
  String.mk (s.data.map (fun ch => if ch = a then b else ch))

/-- Python s.lower(). -/
def pyLower (s : String) : String :=
  String.mk (s.data.map Char.toLower)

/-- Needle occurs as a contiguous sublist of the haystack. -/
def isSublist (needle : List Char) : List Char → Bool
  | [] => needle.isEmpty
  | c :: rest => needle.isPrefixOf (c :: rest) || isSublist needle rest

/-- Python (sub in s) on strings. -/
def containsSub (s sub : String) : Bool :=
  isSublist sub.data s.data

/-- Python truthiness of an optional string parameter: present and
non-empty. -/
def truthy (o : Option String) : Bool :=
  match o with
  | some s => !(s == "")
  | none => false

/-! ## Variants array rows (python-daemon.py)

A TileDB array is modelled as the list of its rows in array order; a
dimension slice becomes a filter on the coordinate fields.  The variants
array has dimensions (chrom, pos) and string attributes; the qual
attribute is a float, modelled as a rational.  The samples attribute
holds a JSON-encoded per-sample map; JSON decoding is a black box in the
spec, so the row carries the decoded association list from sample name
to its GT genotype string. -/

structure VariantRow where
  chrom : Nat
  pos : Nat
  ref : String
  alt : String
  qual : ℚ
  filter : String
  info : String
  samples : List (String × String)
deriving Repr, DecidableEq

/-- One decoded variant as built in the query_variants result loop. -/
structure DecodedVariant where
  chrom : String
  pos : Nat
  ref : String
  alt : List String
  qual : Option ℚ
  filter : List String
  info : String
  samples : List (String × String)
deriving Repr, DecidableEq

/-- A two-dimensional slice arr[clo:chi, plo:phi] of the variants array:
exactly the rows whose coordinates fall in the half-open ranges, in
array order. -/
def sliceRows (store : List VariantRow) (clo chi plo phi : Nat) : List VariantRow :=
  store.filter (fun r => decide (clo ≤ r.chrom ∧ r.chrom < chi ∧ plo ≤ r.pos ∧ r.pos < phi))

/-- The variant dict built from row i of the query result
(python-daemon.py lines 140-151). -/
def decodeRow (r : VariantRow) : DecodedVariant :=
  { chrom := (reverse_chrom_map r.chrom).getD (toString r.chrom)
    pos := r.pos
    ref := r.ref
    alt := if r.alt = "" then [] else pySplit r.alt ','
    qual := if 0 < r.qual then some r.qual else none
    filter := if r.filter = "" then [] else pySplit r.filter ','
    info := r.info
    samples := r.samples }

/-- Parameters of a query_variants request, with the defaults the code
reads via query_params.get.  chrom, ref and alt set to none model the
key being absent or falsy in the params dict. -/
structure QueryParams where
  chrom : Option String := none
  start : Nat := 1
  endPos : Nat := 300000000
  limit : Nat := 100
  minQual : Option ℚ := none
  ref : Option String := none
  alt : Option String := none

/-- The three post-decode filters of query_variants (lines 153-164):
a variant is kept unless one of the continue branches fires. -/
def passesFilters (p : QueryParams) (v : DecodedVariant) : Bool :=
  (match p.minQual with
   | none => true
   | some m =>
     match v.qual with
     | none => false
     | some q => !(decide (q < m))) &&
  (if truthy p.ref then v.ref == p.ref.getD "" else true) &&
  (if truthy p.alt then v.alt.contains (p.alt.getD "") else true)

/-- The result loop of query_variants: result_count = min(size, limit)
iterations over the slice, decoding each row and applying the filters
with continue.  The fuel argument is the remaining iteration count. -/
def processRows (p : QueryParams) : List VariantRow → Nat → List DecodedVariant
  | _, 0 => []
  | [], _ + 1 => []
  | r :: rest, n + 1 =>
    let v := decodeRow r
    if passesFilters p v then v :: processRows p rest n else processRows p rest n

/-- TileDBQueryDaemon.query_variants (lines 114-172).  The variants
array handle is none when the array was missing at startup. -/
def query_variants (variantsArray : Option (List VariantRow)) (p : QueryParams) :
    Except String (List DecodedVariant × Nat) :=
  match variantsArray with
  | none => Except.error "Variants array not initialized"
  | some store =>
    let chromVal : Option Nat :=
      if truthy p.chrom then some (resolve_chrom (p.chrom.getD "")) else none
    let rows :=
      match chromVal with
      | some c => sliceRows store c (c + 1) p.start p.endPos
      | none => sliceRows store 1 26 p.start p.endPos
    let vs := processRows p rows p.limit
    Except.ok (vs, vs.length)

/-! ## Allele frequency (python-daemon.py, calculate_allele_frequency) -/

/-- Python gt.replace('|', '/').split('/'): the allele fields of one
genotype string, with phased and unphased separators identified. -/
def gtAlleles (gt : String) : List String :=
  pySplit (pyReplace gt '|' '/') '/'

/-- The inner counting loop for one genotype string: skip './.'
entirely, then count every non-'.' allele as called and every called
non-'0' allele as alternate.  The accumulator is
(alt_alleles, total_alleles). -/
def countGT (acc : Nat × Nat) (gt : String) : Nat × Nat :=
  if gt = "./." then acc
  else
    (gtAlleles gt).foldl
      (fun a al =>
        if al = "." then a
        else (if al = "0" then a.1 else a.1 + 1, a.2 + 1))
      acc

/-- (alt_alleles, total_alleles) accumulated over the decoded
per-sample map. -/
def countAlleles (samples : List (String × String)) : Nat × Nat :=
  samples.foldl (fun acc sg => countGT acc sg.2) (0, 0)

/-- The row-match test of the scan loop (lines 257-260): coordinates
equal and the requested alt among the comma-separated alt alleles. -/
def afMatch (cn pos : Nat) (ref alt : String) (r : VariantRow) : Bool :=
  (r.chrom == cn) && (r.pos == pos) && (r.ref == ref) &&
    (pySplit r.alt ',').contains alt

/-- The scan over the point-slice rows: on a matching row with at least
one called allele return alt_alleles / total_alleles (exact rational in
place of Python float division), otherwise keep scanning; 0 when the
scan falls through. -/
def afScan (cn pos : Nat) (ref alt : String) : List VariantRow → ℚ
  | [] => 0
  | r :: rest =>
    if afMatch cn pos ref alt r then
      let c := countAlleles r.samples
      if 0 < c.2 then mkRat c.1 c.2 else afScan cn pos ref alt rest
    else afScan cn pos ref alt rest

/-- TileDBQueryDaemon.calculate_allele_frequency (lines 246-283). -/
def calculate_allele_frequency (variantsArray : Option (List VariantRow))
    (chrom : String) (pos : Nat) (ref alt : String) : ℚ :=
  match variantsArray with
  | none => 0
  | some store =>
    let cn := resolve_chrom chrom
    afScan cn pos ref alt (sliceRows store cn (cn + 1) pos (pos + 1))

/-! ## Population frequency lookup (python-daemon.py, lookup_population_frequency) -/

/-- One stored row of the population frequency array: dimensions
(chrom, pos, allele_idx are not read back by the daemon) and the
attribute columns of the gnomAD schema. -/
structure PopRow where
  chrom : Nat
  pos : Nat
  ref : String
  alt : String
  af_global : ℚ
  af_afr : ℚ
  af_amr : ℚ
  af_asj : ℚ
  af_eas : ℚ
  af_fin : ℚ
  af_nfe : ℚ
  af_oth : ℚ
  ac_global : Nat
  an_global : Nat
  nhomalt_global : Nat
  faf95_global : ℚ
  is_common : Bool
deriving Repr, DecidableEq

/-- The per-variant dict of a successful lookup (lines 304-323): the
request echo plus the attributes of the matched row. -/
structure PopVariantOut where
  chrom : String
  pos : Nat
  ref : String
  alt : String
  af_global : ℚ
  af_afr : ℚ
  af_amr : ℚ
  af_asj : ℚ
  af_eas : ℚ
  af_fin : ℚ
  af_nfe : ℚ
  af_oth : ℚ
  ac_global : Nat
  an_global : Nat
  nhomalt_global : Nat
  faf95_global : ℚ
  is_common : Bool
deriving Repr, DecidableEq

/-- The response dict of lookup_population_frequency.  The code returns
either an error dict with no variants key, or a variants dict with no
error key; the absent key is modelled as none. -/
structure PopLookupResponse where
  error : Option String
  variants : Option (List PopVariantOut)
deriving Repr, DecidableEq

def popOut (chrom : String) (pos : Nat) (ref alt : String) (r : PopRow) : PopVariantOut :=
  { chrom := chrom, pos := pos, ref := ref, alt := alt
    af_global := r.af_global, af_afr := r.af_afr, af_amr := r.af_amr
    af_asj := r.af_asj, af_eas := r.af_eas, af_fin := r.af_fin
    af_nfe := r.af_nfe, af_oth := r.af_oth
    ac_global := r.ac_global, an_global := r.an_global
    nhomalt_global := r.nhomalt_global, faf95_global := r.faf95_global
    is_common := r.is_common }

/-- A two-dimensional point slice of the population array. -/
def slicePopRows (store : List PopRow) (clo chi plo phi : Nat) : List PopRow :=
  store.filter (fun r => decide (clo ≤ r.chrom ∧ r.chrom < chi ∧ plo ≤ r.pos ∧ r.pos < phi))

/-- TileDBQueryDaemon.lookup_population_frequency (lines 285-331).  The
population array handle is none when the optional array was missing at
startup. -/
def lookup_population_frequency (populationArray : Option (List PopRow))
    (chrom : String) (pos : Nat) (ref alt : String) : PopLookupResponse :=
  match populationArray with
  | none => { error := some "Population frequency array not available", variants := none }
  | some store =>
    let cn := resolve_chrom chrom
    let slice := slicePopRows store cn (cn + 1) pos (pos + 1)
    match slice.find? (fun r =>
        (r.chrom == cn) && (r.pos == pos) && (r.ref == ref) && (r.alt == alt)) with
    | some r => { error := none, variants := some [popOut chrom pos ref alt r] }
    | none => { error := none, variants := some [] }

/-! ## Array statistics (python-daemon.py, get_array_stats) -/

/-- The stats dict of get_array_stats.  The on-disk size is kept in
bytes; the human-readable MB/GB rendering is display formatting over
floats and is not modelled. -/
structure ArrayStats where
  totalVariants : Nat
  chromosomes : List String
  positionRange : Nat × Nat
  sampleCount : Nat
  arraySizeBytes : Nat
deriving Repr, DecidableEq

/-- The stats computation on a cache miss (lines 196-236): the
chromosome list and position range come from the non-empty domain, the
size from the bytes on disk, and totalVariants is the hard-coded
known-import-count constant 38821856. -/
def computeStats (nonEmptyDomain : Option ((Nat × Nat) × (Nat × Nat)))
    (diskBytes : Nat) : ArrayStats :=
  match nonEmptyDomain with
  | some ((c0, c1), (p0, p1)) =>
    { totalVariants := 38821856
      chromosomes := ((List.range (c1 + 1 - c0)).map (fun j => c0 + j)).filterMap reverse_chrom_map
      positionRange := (p0, p1)
      sampleCount := 1
      arraySizeBytes := diskBytes }
  | none =>
    { totalVariants := 0
      chromosomes := []
      positionRange := (0, 0)
      sampleCount := 0
      arraySizeBytes := 0 }

/-- self.cache_ttl (300 seconds). -/
def cacheTTL : Int := 300

/-- TileDBQueryDaemon.get_array_stats (lines 174-244).  Time is an
integer number of seconds; the process-local cache holds the stats and
the store timestamp.  Returns the response together with the cache
state after the call. -/
def get_array_stats (variantsOpen : Bool)
    (nonEmptyDomain : Option ((Nat × Nat) × (Nat × Nat))) (diskBytes : Nat)
    (now : Int) (statsCache : Option (ArrayStats × Int)) :
    Except String ArrayStats × Option (ArrayStats × Int) :=
  match statsCache with
  | some (st, ts) =>
    if now - ts < cacheTTL then (Except.ok st, some (st, ts))
    else if variantsOpen then
      (Except.ok (computeStats nonEmptyDomain diskBytes),
       some (computeStats nonEmptyDomain diskBytes, now))
    else (Except.error "Variants array not initialized", some (st, ts))
  | none =>
    if variantsOpen then
      (Except.ok (computeStats nonEmptyDomain diskBytes),
       some (computeStats nonEmptyDomain diskBytes, now))
    else (Except.error "Variants array not initialized", none)

/-! ## gnomAD population record construction
(gnomad-processor.py, GnomadProcessor.parse_vcf_line, lines 112-200)

The text parsing of the VCF line (tab splitting, INFO key=value
splitting, float parsing) is the black-box parser of the spec; the
embedding starts from the parsed per-line values: the alt allele list
and the per-allele INFO arrays.  parse_array_field pads a scalar field
to the length of the alt list, so a caller can pass lists of any
length; af_globals is the only array indexed without a bounds guard, so
a too-short af_globals raises IndexError, which parse_vcf_line catches
by returning None. -/

/-- One record of the gnomAD processor dataclass PopulationFrequency. -/
structure PopulationFrequency where
  chrom : String
  pos : Nat
  ref : String
  alt : String
  af_global : ℚ
  af_afr : ℚ
  af_amr : ℚ
  af_asj : ℚ
  af_eas : ℚ
  af_fin : ℚ
  af_nfe : ℚ
  af_oth : ℚ
  ac_global : Nat
  an_global : Nat
  nhomalt_global : Nat
  faf95_global : ℚ
  is_common : Bool
deriving Repr, DecidableEq

/-- The common/rare threshold literal 0.01 of line 174. -/
def commonThreshold : ℚ := mkRat 1 100

/-- The per-alt-allele record loop of parse_vcf_line (lines 167-196):
skip alleles with zero global frequency, mark is_common when the global
frequency is strictly above the threshold, and return None either when
af_globals is shorter than the alt list (IndexError caught by the
except clause) or when no record survives. -/
def buildPopRecords (chrom : String) (pos : Nat) (ref : String) (alts : List String)
    (af_globals af_afrs af_amrs af_asjs af_eass af_fins af_nfes af_oths : List ℚ)
    (ac_globals : List Nat) (an_global : Nat) (nhomalt_globals : List Nat)
    (faf95_globals : List ℚ) : Option (List PopulationFrequency) :=
  if af_globals.length < alts.length then none
  else
    let recs := alts.enum.filterMap (fun ia =>
      let i := ia.1
      let alt := ia.2
      let af := (af_globals[i]?).getD 0
      if af = 0 then none
      else
        some
          { chrom := chrom, pos := pos, ref := ref, alt := alt
            af_global := af
            af_afr := (af_afrs[i]?).getD 0
            af_amr := (af_amrs[i]?).getD 0
            af_asj := (af_asjs[i]?).getD 0
            af_eas := (af_eass[i]?).getD 0
            af_fin := (af_fins[i]?).getD 0
            af_nfe := (af_nfes[i]?).getD 0
            af_oth := (af_oths[i]?).getD 0
            ac_global := (ac_globals[i]?).getD 0
            an_global := an_global
            nhomalt_global := (nhomalt_globals[i]?).getD 0
            faf95_global := (faf95_globals[i]?).getD af
            is_common := decide (commonThreshold < af) })
    if recs.isEmpty then none else some recs

/-! ## ClinVar clinical-significance classification
(clinvar-processor.py, process_clinvar_vcf statistics block, lines 249-262) -/

/-- The seven outcome buckets; unclassified is the fall-through where no
counter is incremented. -/
inductive SignificanceBucket where
  | pathogenic
  | likely_pathogenic
  | benign
  | likely_benign
  | vus
  | conflicting
  | unclassified
deriving Repr, DecidableEq

/-- The if/elif classification chain over
sig = variant.clinical_significance.lower(). -/
def classify_significance (significance : String) : SignificanceBucket :=
  let sig := pyLower significance
  if containsSub sig "pathogenic" && !(containsSub sig "likely") then .pathogenic
  else if containsSub sig "likely pathogenic" then .likely_pathogenic
  else if containsSub sig "benign" && !(containsSub sig "likely") then .benign
  else if containsSub sig "likely benign" then .likely_benign
  else if containsSub sig "uncertain" || containsSub sig "vus" then .vus
  else if containsSub sig "conflicting" then .conflicting
  else .unclassified

/-- The spec side of the classification claim: an explicit ordered list
of (predicate, bucket) rules over the lower-cased string, evaluated in
fixed priority. -/
def classificationRules : List ((String → Bool) × SignificanceBucket) :=
  [ (fun s => containsSub s "pathogenic" && !(containsSub s "likely"), .pathogenic),
    (fun s => containsSub s "likely pathogenic", .likely_pathogenic),
    (fun s => containsSub s "benign" && !(containsSub s "likely"), .benign),
    (fun s => containsSub s "likely benign", .likely_benign),
    (fun s => containsSub s "uncertain" || containsSub s "vus", .vus),
    (fun s => containsSub s "conflicting", .conflicting) ]

/-- The spec side of the classification claim: first matching rule wins,
default unclassified. -/
def classify_by_rules (significance : String) : SignificanceBucket :=
  match classificationRules.find? (fun rule => rule.1 (pyLower significance)) with
  | some rule => rule.2
  | none => .unclassified

/-! ## Allele index assigner
(gnomad-processor.py lines 241-251 and, identically, clinvar-processor.py
lines 230-239)

Both ingestion pipelines keep a run-scoped dict position_allele_map from
(chrom_int, pos) to an inner dict from the allele key "ref>alt" to its
assigned index; the next index for a position is the current size of
that position's inner dict.  Python dicts preserve insertion order, so
the inner dict is an association list; the outer dict is only ever read
pointwise, so it is a function from position key to inner table. -/

abbrev PosKey := Nat × Nat

abbrev PosTable := List (String × Nat)

abbrev AlleleMap := PosKey → PosTable

/-- The shared insertion step: reuse the stored index for a seen allele
key, otherwise append the key with index = current table size. -/
def assignAllele (tbl : PosTable) (key : String) : PosTable × Nat :=
  match tbl.lookup key with
  | some i => (tbl, i)
  | none => (tbl ++ [(key, tbl.length)], tbl.length)

/-- The step on the whole run-scoped map: get-or-create the inner table
of the position, then assign. -/
def assignAlleleAt (m : AlleleMap) (pk : PosKey) (key : String) : AlleleMap × Nat :=
  let r := assignAllele (m pk) key
  (fun pk2 => if pk2 = pk then r.1 else m pk2, r.2)

/-- The map after an ingestion run that observed the given sequence of
(position, allele key) events, starting from the empty map. -/
def runAssign (evs : List (PosKey × String)) : AlleleMap :=
  evs.foldl (fun m e => (assignAlleleAt m e.1 e.2).1) (fun _ => [])

/-- The allele keys observed at one position, in order. -/
def eventsAt (evs : List (PosKey × String)) (pk : PosKey) : List String :=
  evs.filterMap (fun e => if e.1 = pk then some e.2 else none)

/-- The single-position fold of assignAllele over a key sequence. -/
def tableFor (ks : List String) : PosTable :=
  ks.foldl (fun tbl k => (assignAllele tbl k).1) []

/-- The distinct elements of a list in first-seen order. -/
def firstSeen (ks : List String) : List String :=
  ks.foldl (fun acc k => if k ∈ acc then acc else acc ++ [k]) []

/-! ## Concrete data used by witnesses and counterexamples -/

/-- The slice of the variants array selected by a query_variants
request, as the code builds it: the resolved chromosome when the chrom
param is present and truthy, all 25 chromosomes otherwise. -/
def resolvedSlice (store : List VariantRow) (p : QueryParams) : List VariantRow :=
  if truthy p.chrom then
    sliceRows store (resolve_chrom (p.chrom.getD "")) (resolve_chrom (p.chrom.getD "") + 1)
      p.start p.endPos
  else sliceRows store 1 26 p.start p.endPos

/-- Scenario row: one stored variant with per-sample genotypes
0/1 x3 (one of them phased), 1/1 x2, 0/0 x1, ./. x4. -/
def scenarioRow : VariantRow :=
  { chrom := 17, pos := 43044295, ref := "A", alt := "G", qual := 50
    filter := "PASS", info := "", samples :=
      [("s1", "0/1"), ("s2", "0/1"), ("s3", "0|1"),
       ("s4", "1/1"), ("s5", "1/1"), ("s6", "0/0"),
       ("s7", "./."), ("s8", "./."), ("s9", "./."), ("s10", "./.")] }

/-- Counterexample store: two rows on chromosome 1; the first has low
quality, the second high quality. -/
def cexRow1 : VariantRow :=
  { chrom := 1, pos := 100, ref := "A", alt := "G", qual := 5
    filter := "", info := "", samples := [] }

def cexRow2 : VariantRow :=
  { chrom := 1, pos := 200, ref := "A", alt := "G", qual := 50
    filter := "", info := "", samples := [] }

/-- Counterexample request: limit 1 with a minQual filter that rejects
the first row of the slice but accepts the second. -/
def cexParams : QueryParams :=
  { chrom := some "1", limit := 1, minQual := some 10 }

/-- A one-row store on chromosome 1 used by the unrecognized-label
witness. -/
def w9row : VariantRow :=
  { chrom := 1, pos := 100, ref := "A", alt := "G", qual := 30
    filter := "", info := "", samples := [("s1", "0/1")] }

/-- Event sequence for the allele-index witness: three events at one
position (with one repeat) and one event at another position. -/
def evs0 : List (PosKey × String) :=
  [((17, 43044295), "A>G"), ((17, 43044295), "A>T"),
   ((17, 43044295), "A>G"), ((1, 5), "C>T")]

def pk0 : PosKey := (17, 43044295)

/-- The record buildPopRecords emits for alt G with global frequency
exactly 0.01 on the boundary witness line. -/
def recBoundaryLow : PopulationFrequency :=
  { chrom := "1", pos := 100, ref := "A", alt := "G"
    af_global := mkRat 1 100, af_afr := 0, af_amr := 0, af_asj := 0, af_eas := 0
    af_fin := 0, af_nfe := 0, af_oth := 0, ac_global := 0, an_global := 0
    nhomalt_global := 0, faf95_global := mkRat 1 100, is_common := false }

/-- The record buildPopRecords emits for alt T with global frequency
0.010001 on the boundary witness line. -/
def recBoundaryHigh : PopulationFrequency :=
  { chrom := "1", pos := 100, ref := "A", alt := "T"
    af_global := mkRat 10001 1000000, af_afr := 0, af_amr := 0, af_asj := 0, af_eas := 0
    af_fin := 0, af_nfe := 0, af_oth := 0, ac_global := 0, an_global := 0
    nhomalt_global := 0, faf95_global := mkRat 10001 1000000, is_common := true }

/-! ## Helper lemmas -/

/-- List.lookup finds nothing exactly when the key is absent from the
key column. -/
theorem lookup_eq_none_iff (tbl : PosTable) (k : String) :
    tbl.lookup k = none ↔ k ∉ tbl.map Prod.fst := by
  induction tbl with
  | nil => simp
  | cons a t ih =>
    cases a with
    | mk a1 a2 =>
      by_cases h : k = a1
      · subst h
        simp [List.lookup]
      · simp [List.lookup, h, ih, Ne.symm h, beq_false_of_ne h]

/-- The shared fold invariant of the allele index tables: starting from
a table whose value column is 0..len-1, the key column evolves exactly
as the first-seen fold and the value column stays 0..len-1. -/
theorem tableFold_spec :
    ∀ (ks : List String) (tbl : PosTable),
      tbl.map Prod.snd = List.range tbl.length →
      ((ks.foldl (fun t k => (assignAllele t k).1) tbl).map Prod.fst =
          ks.foldl (fun acc k => if k ∈ acc then acc else acc ++ [k]) (tbl.map Prod.fst))
      ∧ ((ks.foldl (fun t k => (assignAllele t k).1) tbl).map Prod.snd =
          List.range (ks.foldl (fun t k => (assignAllele t k).1) tbl).length) := by
  intro ks
  induction ks with
  | nil => intro tbl h; simpa using h
  | cons k ks ih =>
    intro tbl h
    simp only [List.foldl_cons]
    rcases hl : tbl.lookup k with _ | i
    · have hnotmem : k ∉ tbl.map Prod.fst := (lookup_eq_none_iff tbl k).mp hl
      have hstep : (assignAllele tbl k).1 = tbl ++ [(k, tbl.length)] := by
        simp [assignAllele, hl]
      rw [hstep]
      have hsnd : (tbl ++ [(k, tbl.length)]).map Prod.snd =
          List.range (tbl ++ [(k, tbl.length)]).length := by
        simp [h, List.range_succ]
      have := ih (tbl ++ [(k, tbl.length)]) hsnd
      rcases this with ⟨h1, h2⟩
      refine ⟨?_, h2⟩
      rw [h1]
      simp [hnotmem]
    · have hmem : k ∈ tbl.map Prod.fst := by
        by_contra hc
        rw [← lookup_eq_none_iff] at hc
        rw [hl] at hc
        cases hc
      have hstep : (assignAllele tbl k).1 = tbl := by
        simp [assignAllele, hl]
      rw [hstep]
      have := ih tbl h
      rcases this with ⟨h1, h2⟩
      refine ⟨?_, h2⟩
      rw [h1]
      simp [hmem]

/-- The run-scoped map, read at one position, equals the single-position
fold over the events observed at that position: the index counter is
scoped per position. -/
theorem runAssign_factors :
    ∀ (evs : List (PosKey × String)) (m : AlleleMap) (pk : PosKey),
      (evs.foldl (fun m2 e => (assignAlleleAt m2 e.1 e.2).1) m) pk =
        (eventsAt evs pk).foldl (fun t k => (assignAllele t k).1) (m pk) := by
  intro evs
  induction evs with
  | nil => intro m pk; simp [eventsAt]
  | cons e evs ih =>
    intro m pk
    simp only [List.foldl_cons]
    rw [ih]
    by_cases h : e.1 = pk
    · subst h
      simp [eventsAt, assignAlleleAt]
    · have hev : eventsAt (e :: evs) pk = eventsAt evs pk := by
        simp only [eventsAt, List.filterMap_cons, if_neg h]
      have hm : (assignAlleleAt m e.1 e.2).1 pk = m pk := by
        simp only [assignAlleleAt]
        exact if_neg (fun hpk => h hpk.symm)
      rw [hev, hm]

/-- processRows with fuel n is: decode the first n slice rows, then
filter. -/
theorem processRows_eq (p : QueryParams) :
    ∀ (rows : List VariantRow) (n : Nat),
      processRows p rows n =
        ((rows.take n).map decodeRow).filter (fun v => passesFilters p v) := by
  intro rows
  induction rows with
  | nil => intro n; cases n <;> simp [processRows]
  | cons r rest ih =>
    intro n
    cases n with
    | zero => simp [processRows]
    | succ n =>
      simp only [processRows, List.take_succ_cons, List.map_cons, List.filter_cons]
      rw [ih n]

/-- The allele-frequency scan returns the frequency of the first
matching row that has a called allele, and 0 when there is none. -/
theorem afScan_eq_find (cn pos : Nat) (ref alt : String) :
    ∀ l : List VariantRow,
      afScan cn pos ref alt l =
        (match l.find?
            (fun r => afMatch cn pos ref alt r && decide (0 < (countAlleles r.samples).2)) with
          | some r => mkRat (countAlleles r.samples).1 (countAlleles r.samples).2
          | none => 0) := by
  intro l
  induction l with
  | nil => rfl
  | cons r rest ih =>
    by_cases hm : afMatch cn pos ref alt r
    · by_cases ht : 0 < (countAlleles r.samples).2
      · simp [afScan, hm, ht, List.find?_cons]
      · simp [afScan, hm, ht, List.find?_cons, ih]
    · simp [afScan, hm, List.find?_cons, ih]

/-- The query_variants result loop never reads the chrom parameter
(it only enters the slice bounds), so processRows is invariant under
changing it. -/
theorem processRows_chrom_irrel (p : QueryParams) (c1 c2 : Option String)
    (rows : List VariantRow) (n : Nat) :
    processRows { p with chrom := c1 } rows n = processRows { p with chrom := c2 } rows n := by
  rw [processRows_eq, processRows_eq]
  rfl

/-- filterMap with a negatively guarded constructor is filter then
map. -/
theorem filterMap_guard_neg_eq {α β : Type} (p : α → Prop) [DecidablePred p] (g : α → β)
    (l : List α) :
    l.filterMap (fun a => if p a then none else some (g a)) =
      (l.filter (fun a => !(decide (p a)))).map g := by
  induction l with
  | nil => rfl
  | cons a l ih =>
    by_cases h : p a <;> simp [List.filterMap_cons, List.filter_cons, h, ih]

/-- The rows a query_variants call returns: the first limit rows of the
resolved slice, decoded, then filtered. -/
def qvResult (store : List VariantRow) (p : QueryParams) : List DecodedVariant :=
  (((resolvedSlice store p).take p.limit).map decodeRow).filter (fun v => passesFilters p v)

/-! ## Claim C1: query_variants range slice, filters and limit -/

/-- Counterexample to C1: a store whose chromosome-1 slice holds one row
passing the minQual filter (at least limit = 1 of them), yet the
request returns zero matches, because the code truncates to limit
before filtering. -/
theorem query_variants_limit_counterexample :
    cexParams.limit = 1
    ∧ ((sliceRows [cexRow1, cexRow2] 1 2 1 300000000).filter
        (fun r => passesFilters cexParams (decodeRow r))).length = 1
    ∧ query_variants (some [cexRow1, cexRow2]) cexParams = Except.ok ([], 0) :=
  ⟨rfl, by decide, by rfl⟩

/-- Claim C1 (amended): query_variants slices [start,end) on the
resolved chromosome (all 25 when chrom is omitted or falsy), decodes
only the first limit rows of the slice, applies minQual/ref/alt as
post-decode filters to those, and returns the matches together with
their count; hence at most limit matches, and exactly limit when no
filter is supplied and the slice is at least limit long, but possibly
fewer than limit even when the slice contains limit passing rows. -/
theorem query_variants_characterization (store : List VariantRow) (p : QueryParams) :
    query_variants (some store) p = Except.ok (qvResult store p, (qvResult store p).length)
    ∧ (qvResult store p).length ≤ p.limit
    ∧ (p.minQual = none → p.ref = none → p.alt = none →
        p.limit ≤ (resolvedSlice store p).length →
        (qvResult store p).length = p.limit) := by
  refine ⟨?_, ?_, ?_⟩
  · by_cases hc : truthy p.chrom <;>
      simp only [query_variants, qvResult, resolvedSlice, hc, if_true, if_false,
        Bool.false_eq_true, processRows_eq]
  · calc (qvResult store p).length
        ≤ (((resolvedSlice store p).take p.limit).map decodeRow).length :=
          List.length_filter_le _ _
      _ ≤ p.limit := by
          rw [List.length_map, List.length_take]
          exact min_le_left _ _
  · intro h1 h2 h3 hlim
    have hall : ∀ v, passesFilters p v = true := by
      intro v
      simp [passesFilters, h1, h2, h3, truthy]
    have hfilter : qvResult store p = ((resolvedSlice store p).take p.limit).map decodeRow := by
      simp only [qvResult]
      exact List.filter_eq_self.mpr (fun v _ => hall v)
    rw [hfilter, List.length_map, List.length_take]
    exact min_eq_left hlim

/-- Witness for C1 on a one-row store with limit 1 and no filters:
exactly limit matches come back, in the form the theorem states. -/
theorem query_variants_characterization_witness :
    query_variants (some [cexRow1]) { limit := 1 } =
      Except.ok (qvResult [cexRow1] { limit := 1 }, (qvResult [cexRow1] { limit := 1 }).length)
    ∧ (qvResult [cexRow1] { limit := 1 }).length = 1 := by
  have h := query_variants_characterization [cexRow1] { limit := 1 }
  exact ⟨h.1, h.2.2 rfl rfl rfl (by decide)⟩

/-! ## Claim C4: allele frequency computation -/

/-- Claim C4: calculate_allele_frequency returns, for the first
point-slice row matching (chrom,pos,ref,alt) that has at least one
called allele, the ratio of alternate called alleles to all called
alleles over the decoded per-sample genotype map (uncalled ./.
genotypes and . alleles excluded, phased and unphased separators
identified by the replace step inside gtAlleles), and 0 when the array
handle is missing, no row matches, or no allele is called; on the
scenario genotypes 0/1 x3, 1/1 x2, 0/0 x1, ./. x4 it returns 7/12. -/
theorem calculate_allele_frequency_spec :
    (∀ (chrom : String) (pos : Nat) (ref alt : String),
        calculate_allele_frequency none chrom pos ref alt = 0)
    ∧ (∀ (store : List VariantRow) (chrom : String) (pos : Nat) (ref alt : String),
        calculate_allele_frequency (some store) chrom pos ref alt =
          (match (sliceRows store (resolve_chrom chrom) (resolve_chrom chrom + 1) pos
              (pos + 1)).find?
              (fun r => afMatch (resolve_chrom chrom) pos ref alt r &&
                decide (0 < (countAlleles r.samples).2)) with
            | some r => mkRat (countAlleles r.samples).1 (countAlleles r.samples).2
            | none => 0))
    ∧ countAlleles scenarioRow.samples = (7, 12)
    ∧ calculate_allele_frequency (some [scenarioRow]) "17" 43044295 "A" "G" = mkRat 7 12 := by
  refine ⟨fun _ _ _ _ => rfl, ?_, by decide, by decide⟩
  intro store chrom pos ref alt
  simp only [calculate_allele_frequency]
  exact afScan_eq_find _ _ _ _ _

/-! ## Claim C5: clinical-significance classification priority -/

/-- Claim C5: the classification chain is exactly the ordered
first-match evaluation of the six case-insensitive substring rules with
unclassified as the fall-through, so every significance string resolves
deterministically to exactly one bucket; in particular the string
Pathogenic/Likely pathogenic resolves to likely_pathogenic (the first
rule fails because likely occurs, the second matches). -/
theorem classification_priority (sig : String) :
    classify_significance sig = classify_by_rules sig
    ∧ classify_significance "Pathogenic/Likely pathogenic" =
        SignificanceBucket.likely_pathogenic := by
  constructor
  · rcases hb1 : containsSub (pyLower sig) "pathogenic" && !containsSub (pyLower sig) "likely"
      <;> rcases hb2 : containsSub (pyLower sig) "likely pathogenic"
      <;> rcases hb3 : containsSub (pyLower sig) "benign" && !containsSub (pyLower sig) "likely"
      <;> rcases hb4 : containsSub (pyLower sig) "likely benign"
      <;> rcases hb5 : containsSub (pyLower sig) "uncertain" || containsSub (pyLower sig) "vus"
      <;> rcases hb6 : containsSub (pyLower sig) "conflicting"
      <;> simp [classify_significance, classify_by_rules, classificationRules, List.find?,
            hb1, hb2, hb3, hb4, hb5, hb6]
  · decide

/-! ## Claim C8: chromosome map round trip -/

/-- Claim C8: for every chromosome label in 1..22, X, Y, MT, M and its
chr-prefixed form, composing chrom_map with reverse_chrom_map yields the
canonical chr-prefixed form of that label (with the alias M normalized
to the canonical mitochondrial label MT that reverse_chrom_map uses). -/
theorem chrom_roundtrip_canonical :
    ∀ s ∈ allChromLabels,
      (chrom_map s).bind reverse_chrom_map = some (canonical_chrom s) := by
  decide

/-- Witness for C8 at the alias label M. -/
theorem chrom_roundtrip_canonical_witness :
    (chrom_map "M").bind reverse_chrom_map = some "chrMT" := by
  have h := chrom_roundtrip_canonical "M" (by decide)
  rw [h]
  decide

/-! ## Claim C9: unrecognized chromosome labels resolve to chromosome 1 -/

/-- Claim C9: a chromosome label outside the recognized set is silently
resolved to chromosome 1 by the dict default, so query_variants,
calculate_allele_frequency and lookup_population_frequency all answer
from chromosome 1 data (lookup additionally echoes the raw label in the
chrom field of a found variant). -/
theorem unrecognized_chrom_resolves_to_one (s : String) (h : chrom_map s = none) :
    resolve_chrom s = 1
    ∧ (∀ (store : List VariantRow) (p : QueryParams), s ≠ "" →
        query_variants (some store) { p with chrom := some s } =
          query_variants (some store) { p with chrom := some "1" })
    ∧ (∀ (arr : Option (List VariantRow)) (pos : Nat) (ref alt : String),
        calculate_allele_frequency arr s pos ref alt =
          calculate_allele_frequency arr "1" pos ref alt)
    ∧ (∀ (arr : Option (List PopRow)) (pos : Nat) (ref alt : String),
        lookup_population_frequency arr s pos ref alt =
          (let q := lookup_population_frequency arr "1" pos ref alt
           { q with variants := q.variants.map (fun l => l.map (fun v => { v with chrom := s })) })) := by
  have hres : resolve_chrom s = 1 := by simp [resolve_chrom, h]
  have hres1 : resolve_chrom "1" = 1 := by decide
  refine ⟨hres, ?_, ?_, ?_⟩
  · intro store p hs
    have hs' : (s == "") = false := beq_eq_false_iff_ne.mpr hs
    have h0 : (!(s == "")) = true := by rw [hs']; rfl
    have h1 : (!("1" == "")) = true := by decide
    simp only [query_variants, truthy, h0, h1, Option.getD_some, if_true, hres, hres1]
    rw [processRows_chrom_irrel p (some s) (some "1")]
  · intro arr pos ref alt
    cases arr with
    | none => rfl
    | some store =>
      simp only [calculate_allele_frequency]
      rw [hres, hres1]
  · intro arr pos ref alt
    cases arr with
    | none => rfl
    | some store =>
      simp only [lookup_population_frequency]
      rw [hres, hres1]
      cases hf : (slicePopRows store 1 (1 + 1) pos (pos + 1)).find? (fun r =>
          (r.chrom == 1) && (r.pos == pos) && (r.ref == ref) && (r.alt == alt)) with
      | none => rfl
      | some r => rfl

/-- Witness for C9 at the unrecognized label chr99: the allele-frequency
answer is the chromosome-1 answer. -/
theorem unrecognized_chrom_witness :
    resolve_chrom "chr99" = 1
    ∧ calculate_allele_frequency (some [w9row]) "chr99" 100 "A" "G" =
        calculate_allele_frequency (some [w9row]) "1" 100 "A" "G" := by
  have h := unrecognized_chrom_resolves_to_one "chr99" (by decide)
  exact ⟨h.1, h.2.2.1 (some [w9row]) 100 "A" "G"⟩

/-! ## Claim C2: population frequency lookup absence behavior -/

/-- Counterexample to C2: with the population array not configured, the
response is a structured error dict with no variants key at all, not an
empty variants list. -/
theorem population_lookup_missing_array_counterexample :
    (lookup_population_frequency none "1" 100 "A" "G").error =
        some "Population frequency array not available"
    ∧ (lookup_population_frequency none "1" 100 "A" "G").variants = none :=
  ⟨rfl, rfl⟩

/-- Claim C2 (amended): when no stored record matches the given
coordinates and alleles exactly, the lookup returns an empty variants
list and no error; when the population array is not configured, it
returns a structured error response (no variants key), not a crash. -/
theorem population_lookup_spec (store : List PopRow) (chrom : String) (pos : Nat)
    (ref alt : String) :
    (lookup_population_frequency none chrom pos ref alt =
        { error := some "Population frequency array not available", variants := none })
    ∧ ((∀ r ∈ slicePopRows store (resolve_chrom chrom) (resolve_chrom chrom + 1) pos (pos + 1),
          ((r.chrom == resolve_chrom chrom) && (r.pos == pos) && (r.ref == ref) &&
            (r.alt == alt)) = false) →
        lookup_population_frequency (some store) chrom pos ref alt =
          { error := none, variants := some [] }) := by
  refine ⟨rfl, ?_⟩
  intro hnone
  have hfind : (slicePopRows store (resolve_chrom chrom) (resolve_chrom chrom + 1) pos
      (pos + 1)).find? (fun r =>
          (r.chrom == resolve_chrom chrom) && (r.pos == pos) && (r.ref == ref) &&
            (r.alt == alt)) = none := by
    rw [List.find?_eq_none]
    intro r hr
    simp [hnone r hr]
  simp only [lookup_population_frequency]
  rw [hfind]

/-- Witness for C2 on an empty population store: no match yields the
empty-variants response. -/
theorem population_lookup_spec_witness :
    lookup_population_frequency (some []) "1" 100 "A" "G" =
      { error := none, variants := some [] } :=
  (population_lookup_spec [] "1" 100 "A" "G").2 (by decide)

/-! ## Claim C3: array statistics -/

/-- Counterexample to C3: totalVariants does not depend on the
non-empty coordinate domain; two different singleton domains both
report the hard-coded import count 38821856. -/
theorem get_stats_total_constant_counterexample :
    ((get_array_stats true (some ((1, 1), (5, 5))) 0 0 none).1.toOption.map
        (fun st => st.totalVariants)) = some 38821856
    ∧ ((get_array_stats true (some ((2, 3), (10, 20))) 0 0 none).1.toOption.map
        (fun st => st.totalVariants)) = some 38821856 :=
  ⟨rfl, rfl⟩

/-- Claim C3 (amended): on a cache miss or an expired entry the stats
are computed fresh and stored with the current timestamp; within the
300-second TTL the cached stats are returned unchanged; the chromosome
list and position range of fresh stats come from the non-empty domain
and arraySize from the bytes on disk, while totalVariants is the
hard-coded constant 38821856 and sampleCount the constant 1. -/
theorem get_array_stats_spec :
    (∀ ne ds now, get_array_stats true ne ds now none =
        (Except.ok (computeStats ne ds), some (computeStats ne ds, now)))
    ∧ (∀ (vo : Bool) ne ds now st ts, now - ts < cacheTTL →
        get_array_stats vo ne ds now (some (st, ts)) = (Except.ok st, some (st, ts)))
    ∧ (∀ ne ds now st ts, ¬(now - ts < cacheTTL) →
        get_array_stats true ne ds now (some (st, ts)) =
          (Except.ok (computeStats ne ds), some (computeStats ne ds, now)))
    ∧ (∀ c0 c1 p0 p1 ds,
        computeStats (some ((c0, c1), (p0, p1))) ds =
          { totalVariants := 38821856
            chromosomes :=
              ((List.range (c1 + 1 - c0)).map (fun j => c0 + j)).filterMap reverse_chrom_map
            positionRange := (p0, p1)
            sampleCount := 1
            arraySizeBytes := ds }) := by
  refine ⟨?_, ?_, ?_, ?_⟩
  · intro ne ds now
    simp [get_array_stats]
  · intro vo ne ds now st ts hlt
    simp [get_array_stats, hlt]
  · intro ne ds now st ts hge
    simp [get_array_stats, hge]
  · intro c0 c1 p0 p1 ds
    rfl

/-- Witness for C3: a fresh TTL cache hit is served from the cache even
with the variants handle closed. -/
theorem get_array_stats_spec_witness :
    get_array_stats false (some ((1, 2), (5, 9))) 7 10 (some (computeStats none 0, 0)) =
      (Except.ok (computeStats none 0), some (computeStats none 0, 0)) :=
  get_array_stats_spec.2.1 false (some ((1, 2), (5, 9))) 7 10 (computeStats none 0) 0
    (by decide)

/-! ## Claim C6: allele index assignment invariant -/

/-- Claim C6: after any ingestion run, the allele table of each position
lists the distinct allele keys observed there in first-seen order with
values exactly 0..k-1 (the counter is scoped to the position, by the
factorization through eventsAt), and assigning an already-stored key
returns its originally assigned index and leaves the table unchanged;
this is the insertion step shared verbatim by the gnomAD and ClinVar
pipelines. -/
theorem allele_index_invariant (evs : List (PosKey × String)) (pk : PosKey) :
    (runAssign evs pk).map Prod.fst = firstSeen (eventsAt evs pk)
    ∧ (runAssign evs pk).map Prod.snd = List.range (runAssign evs pk).length
    ∧ (∀ key i, (runAssign evs pk).lookup key = some i →
        assignAllele (runAssign evs pk) key = (runAssign evs pk, i)) := by
  have hfac : runAssign evs pk =
      (eventsAt evs pk).foldl (fun t k => (assignAllele t k).1) [] := by
    have h := runAssign_factors evs (fun _ => []) pk
    simpa [runAssign] using h
  have hspec := tableFold_spec (eventsAt evs pk) [] (by simp)
  refine ⟨?_, ?_, ?_⟩
  · rw [hfac]
    simpa [firstSeen] using hspec.1
  · rw [hfac]
    exact hspec.2
  · intro key i hl
    simp [assignAllele, hl]

/-- Witness for C6: three events at one position with one repeated key
and one event elsewhere yield the table A>G at 0, A>T at 1, and
re-assigning A>G returns index 0 without changing the table. -/
theorem allele_index_invariant_witness :
    (runAssign evs0 pk0).map Prod.fst = ["A>G", "A>T"]
    ∧ (runAssign evs0 pk0).map Prod.snd = [0, 1]
    ∧ assignAllele (runAssign evs0 pk0) "A>G" = (runAssign evs0 pk0, 0) := by
  obtain ⟨h1, h2, h3⟩ := allele_index_invariant evs0 pk0
  refine ⟨?_, ?_, h3 "A>G" 0 (by decide)⟩
  · rw [h1]
    decide
  · rw [h2]
    decide

/-! ## Claim C7: is_common threshold -/

/-- Claim C7: every record built from a parsed gnomAD line is marked
common exactly when its global allele frequency is strictly greater
than the threshold 0.01. -/
theorem is_common_iff_af_gt_threshold
    (chrom : String) (pos : Nat) (ref : String) (alts : List String)
    (afg aafr aamr aasj aeas afin anfe aoth : List ℚ) (acg : List Nat) (ang : Nat)
    (nhg : List Nat) (faf : List ℚ) (rec : PopulationFrequency)
    (h : rec ∈ (buildPopRecords chrom pos ref alts afg aafr aamr aasj aeas afin anfe aoth
        acg ang nhg faf).getD []) :
    rec.is_common = true ↔ commonThreshold < rec.af_global := by
  simp only [buildPopRecords] at h
  split at h
  · simp at h
  · split at h
    · simp at h
    · rw [Option.getD_some] at h
      rw [List.mem_filterMap] at h
      obtain ⟨ia, _, hf⟩ := h
      by_cases hz : ((afg[ia.1]?).getD 0 = 0)
      · rw [if_pos hz] at hf
        cases hf
      · rw [if_neg hz] at hf
        rw [Option.some.injEq] at hf
        subst hf
        exact decide_eq_true_iff

/-- Witness for C7 at the boundary: a global frequency of exactly 0.01
yields is_common = false, 0.010001 yields is_common = true. -/
theorem is_common_boundary_witness :
    recBoundaryLow.is_common = false
    ∧ recBoundaryHigh.is_common = true
    ∧ recBoundaryLow.af_global = mkRat 1 100
    ∧ recBoundaryHigh.af_global = mkRat 10001 1000000 := by
  have hlow := is_common_iff_af_gt_threshold "1" 100 "A" ["G", "T"]
    [mkRat 1 100, mkRat 10001 1000000] [] [] [] [] [] [] [] [] 0 [] []
    recBoundaryLow (by decide)
  have hhigh := is_common_iff_af_gt_threshold "1" 100 "A" ["G", "T"]
    [mkRat 1 100, mkRat 10001 1000000] [] [] [] [] [] [] [] [] 0 [] []
    recBoundaryHigh (by decide)
  have hnl : ¬ commonThreshold < recBoundaryLow.af_global := by decide
  refine ⟨?_, hhigh.mpr (by decide), by decide, by decide⟩
  exact Bool.eq_false_iff.mpr (fun hc => hnl (hlow.mp hc))

/-! ## Claim C10: zero-frequency alt alleles are dropped -/

/-- Claim C10: an alternate allele whose global frequency is 0 produces
no record (every surviving record has nonzero global frequency, and the
surviving alt alleles are exactly those whose indexed frequency is
nonzero); a line all of whose alternate alleles have zero global
frequency yields None, hence no records and no allele-index
assignment. -/
theorem zero_af_allele_dropped
    (chrom : String) (pos : Nat) (ref : String) (alts : List String)
    (afg aafr aamr aasj aeas afin anfe aoth : List ℚ) (acg : List Nat) (ang : Nat)
    (nhg : List Nat) (faf : List ℚ) :
    (∀ rec ∈ (buildPopRecords chrom pos ref alts afg aafr aamr aasj aeas afin anfe aoth
        acg ang nhg faf).getD [], rec.af_global ≠ 0)
    ∧ ((∀ i < alts.length, (afg[i]?).getD 0 = 0) →
        buildPopRecords chrom pos ref alts afg aafr aamr aasj aeas afin anfe aoth
          acg ang nhg faf = none)
    ∧ (¬ afg.length < alts.length →
        ((buildPopRecords chrom pos ref alts afg aafr aamr aasj aeas afin anfe aoth
            acg ang nhg faf).getD []).map (fun r => r.alt) =
          (alts.enum.filter (fun ia => !(decide ((afg[ia.1]?).getD 0 = 0)))).map
            (fun ia => ia.2)) := by
  have hgetd : ∀ (recs : List PopulationFrequency),
      (if recs.isEmpty then none else some recs).getD ([] : List PopulationFrequency) = recs := by
    intro recs
    cases recs <;> simp
  refine ⟨?_, ?_, ?_⟩
  · intro rec h
    simp only [buildPopRecords] at h
    split at h
    · simp at h
    · rw [hgetd, List.mem_filterMap] at h
      obtain ⟨ia, _, hf⟩ := h
      by_cases hz : ((afg[ia.1]?).getD 0 = 0)
      · rw [if_pos hz] at hf
        cases hf
      · rw [if_neg hz] at hf
        rw [Option.some.injEq] at hf
        subst hf
        exact hz
  · intro hz
    simp only [buildPopRecords]
    split
    · rfl
    · have hnil : (alts.enum.filterMap (fun ia =>
          if (afg[ia.1]?).getD 0 = 0 then none
          else some
            { chrom := chrom, pos := pos, ref := ref, alt := ia.2
              af_global := (afg[ia.1]?).getD 0
              af_afr := (aafr[ia.1]?).getD 0
              af_amr := (aamr[ia.1]?).getD 0
              af_asj := (aasj[ia.1]?).getD 0
              af_eas := (aeas[ia.1]?).getD 0
              af_fin := (afin[ia.1]?).getD 0
              af_nfe := (anfe[ia.1]?).getD 0
              af_oth := (aoth[ia.1]?).getD 0
              ac_global := (acg[ia.1]?).getD 0
              an_global := ang
              nhomalt_global := (nhg[ia.1]?).getD 0
              faf95_global := (faf[ia.1]?).getD ((afg[ia.1]?).getD 0)
              is_common := decide (commonThreshold < (afg[ia.1]?).getD 0) :
              PopulationFrequency })) = [] := by
        rw [List.filterMap_eq_nil_iff]
        intro ia hmem
        have hlt : ia.1 < alts.length := by
          have h2 : alts[ia.1]? = some ia.2 := List.mem_enum_iff_getElem?.mp hmem
          exact (List.getElem?_eq_some.mp h2).1
        rw [if_pos (hz ia.1 hlt)]
      rw [hnil]
      rfl
  · intro hlen
    simp only [buildPopRecords, if_neg hlen, hgetd, List.map_filterMap]
    have hmapif : ∀ (ia : Nat × String),
        (Option.map (fun r : PopulationFrequency => r.alt)
          (if (afg[ia.1]?).getD 0 = 0 then none
           else some
            { chrom := chrom, pos := pos, ref := ref, alt := ia.2
              af_global := (afg[ia.1]?).getD 0
              af_afr := (aafr[ia.1]?).getD 0
              af_amr := (aamr[ia.1]?).getD 0
              af_asj := (aasj[ia.1]?).getD 0
              af_eas := (aeas[ia.1]?).getD 0
              af_fin := (afin[ia.1]?).getD 0
              af_nfe := (anfe[ia.1]?).getD 0
              af_oth := (aoth[ia.1]?).getD 0
              ac_global := (acg[ia.1]?).getD 0
              an_global := ang
              nhomalt_global := (nhg[ia.1]?).getD 0
              faf95_global := (faf[ia.1]?).getD ((afg[ia.1]?).getD 0)
              is_common := decide (commonThreshold < (afg[ia.1]?).getD 0) :
              PopulationFrequency })) =
        (if (afg[ia.1]?).getD 0 = 0 then none else some ia.2) := by
      intro ia
      by_cases hz : ((afg[ia.1]?).getD 0 = 0) <;> simp [hz]
    simp only [hmapif]
    exact filterMap_guard_neg_eq _ _ _

/-- Witness for C10: a line whose alts G and T both have zero global
frequency yields None, and a line with zero frequency for G and 0.02
for T keeps exactly the T record. -/
theorem zero_af_allele_dropped_witness :
    buildPopRecords "1" 100 "A" ["G", "T"] [0, 0] [] [] [] [] [] [] [] [] 0 [] [] = none
    ∧ ((buildPopRecords "1" 100 "A" ["G", "T"] [0, mkRat 1 50] [] [] [] [] [] [] [] []
        0 [] []).getD []).map (fun r => r.alt) = ["T"] := by
  have h0 := zero_af_allele_dropped "1" 100 "A" ["G", "T"] [0, 0] [] [] [] [] [] [] [] [] 0 [] []
  have h1 := zero_af_allele_dropped "1" 100 "A" ["G", "T"] [0, mkRat 1 50]
    [] [] [] [] [] [] [] [] 0 [] []
  refine ⟨h0.2.1 (by decide), ?_⟩
  rw [h1.2.2 (by decide)]
  decide

end ExomeAnalyzer
